import Mathlib

/-!
The dyncom processor-core facade (`src/core/arm/dyncom/arm_dyncom.cpp`).

A shallow embedding of `ARM_DynCom`: the register file it owns, its accessors,
the bounded execution step and the context save/load protocol, followed by the
properties established about them.

Machine words are natural numbers.  The facade only copies 32-bit words, so no
reduction is needed for them; the one arithmetic operation, `ticks += ...` on a
`u64`, is reduced modulo `2 ^ 64` explicitly.
-/

namespace DynCom

/-! ## Declarations taken from headers -/

/-- Modelled from the spec: the declarations of `ThreadContext` and `ARMul_State`
are in headers outside this source file, so the array sizes they fix are
parameters, counted in 32-bit words.  `cpuSlots` and `fpuSlots` are the sizes of
`ctx.cpu_registers` and `ctx.fpu_registers`, which is what the `sizeof` arguments
of the four `memcpy` calls measure; `extRegs` and `vfpRegs` are the lengths of
`state->ExtReg` and `state->VFP`; `state->Reg` has the sixteen entries of the doc
comments ("Register index (0-15)").

The one bound taken from the spec is `13 ≤ cpuSlots`: the general-register block
of the buffer together with the dedicated `sp`, `lr` and duplicate-PC fields
covers all sixteen general registers (sections 4.4 and 6).  The others are what
the source needs to stay inside its arrays: a `memcpy` of `sizeof` the buffer
block reads or writes that many words of `Reg` and `ExtReg`, hence
`cpuSlots ≤ 16` and `fpuSlots ≤ extRegs`; `VFP[1]` and `VFP[2]` exist, hence
`3 ≤ vfpRegs`. -/
structure Layout where
  cpuSlots : Nat
  fpuSlots : Nat
  extRegs : Nat
  vfpRegs : Nat
  cpu_ge : 13 ≤ cpuSlots
  cpu_le : cpuSlots ≤ 16
  fpu_le : fpuSlots ≤ extRegs
  vfp_ge : 3 ≤ vfpRegs

/-- Index of `VFP[1]`, the floating-point status word. -/
def Layout.vfp1 (L : Layout) : Fin L.vfpRegs :=
  ⟨1, Nat.lt_of_lt_of_le (by decide) L.vfp_ge⟩

/-- Index of `VFP[2]`, the floating-point exception-control word. -/
def Layout.vfp2 (L : Layout) : Fin L.vfpRegs :=
  ⟨2, Nat.lt_of_lt_of_le (by decide) L.vfp_ge⟩

/-- The processor-model descriptor `cpu_config_t`, with its five initialisers
in the order of `s_arm11_cpu_info`. -/
structure cpu_config_t where
  arch : String
  name : String
  val : Nat
  mask : Nat
  cachetype : Nat
  deriving DecidableEq, Repr

/-- The fields of `ARMul_State` that `arm_dyncom.cpp` reads or writes.  `cpu` is
a pointer in the source: `none` is the null pointer left by `memset`.
`NumInstrsToExecute` holds the `int` that `ExecuteInstructions` assigns to it. -/
@[ext]
structure ARMul_State (L : Layout) where
  Reg : Fin 16 → Nat
  pc : Nat
  Cpsr : Nat
  ExtReg : Fin L.extRegs → Nat
  VFP : Fin L.vfpRegs → Nat
  NextInstr : Nat
  NumInstrsToExecute : Int
  Emulate : Nat
  servaddr : Nat
  abort_model : Nat
  bigendSig : Nat
  lateabtSig : Nat
  NirqSig : Nat
  cpu : Option cpu_config_t

/-- The context-transfer buffer `ThreadContext`: the ten fields written by
`SaveContext` and read by `LoadContext`. -/
@[ext]
structure ThreadContext (L : Layout) where
  cpu_registers : Fin L.cpuSlots → Nat
  fpu_registers : Fin L.fpuSlots → Nat
  sp : Nat
  lr : Nat
  pc : Nat
  cpsr : Nat
  fpscr : Nat
  fpexc : Nat
  reg_15 : Nat
  mode : Nat

/-- The functions and constants that the constructor uses and whose definitions
live in other translation units, taken as parameters.  `ARMul_EmulateInit()`
receives no processor state and is therefore absent from the state passing. -/
structure Externals (L : Layout) where
  ARMul_NewState : ARMul_State L → ARMul_State L
  ARMul_SelectProcessor : ARMul_State L → Nat → ARMul_State L
  ARMul_CoProInit : ARMul_State L → ARMul_State L
  ARMul_Reset : ARMul_State L → ARMul_State L
  VFPInit : ARMul_State L → ARMul_State L
  LOW : Nat
  HIGH : Nat
  RESUME : Nat
  NONCACHE : Nat
  ARM_v6_Prop : Nat
  ARM_v5_Prop : Nat
  ARM_v5e_Prop : Nat

/-- The external execution engine `InterpreterMainLoop(state)`: it may rewrite
the whole processor state and reports a count of executed instructions. -/
abbrev Engine (L : Layout) : Type :=
  ARMul_State L → ARMul_State L × Nat

/-! ## The facade -/

/-- The descriptor `s_arm11_cpu_info`. -/
def s_arm11_cpu_info (noncache : Nat) : cpu_config_t :=
  { arch := "armv6", name := "arm11", val := 0x0007b000, mask := 0x0007f000,
    cachetype := noncache }

/-- The state `memset(state.get(), 0, sizeof(ARMul_State))` leaves. -/
def zeroState (L : Layout) : ARMul_State L :=
  { Reg := fun _ => 0, pc := 0, Cpsr := 0, ExtReg := fun _ => 0, VFP := fun _ => 0,
    NextInstr := 0, NumInstrsToExecute := 0, Emulate := 0, servaddr := 0,
    abort_model := 0, bigendSig := 0, lateabtSig := 0, NirqSig := 0, cpu := none }

/-- What `memcpy(dst, src, k words)` leaves in `dst`: the first `k` words are those
of `src`, the others are kept.  `hsrc` keeps the read inside `src`. -/
def memcpy {n m : Nat} (dst : Fin n → Nat) (src : Fin m → Nat) (k : Nat)
    (hsrc : k ≤ m) : Fin n → Nat :=
  fun i => if h : i.val < k then src ⟨i.val, Nat.lt_of_lt_of_le h hsrc⟩ else dst i

/-- The facade object: the owned register file and the `u64` tick counter. -/
@[ext]
structure ARM_DynCom (L : Layout) where
  state : ARMul_State L
  ticks : Nat

namespace ARM_DynCom

variable {L : Layout}

/-- The constructor `ARM_DynCom::ARM_DynCom()`. -/
def new (X : Externals L) : ARM_DynCom L :=
  let s0 := zeroState L
  let s1 := X.ARMul_NewState s0
  let s2 := { s1 with abort_model := 0, cpu := some (s_arm11_cpu_info X.NONCACHE),
                      bigendSig := X.LOW }
  let s3 := X.ARMul_SelectProcessor s2 (X.ARM_v6_Prop ||| X.ARM_v5_Prop ||| X.ARM_v5e_Prop)
  let s4 := { s3 with lateabtSig := X.LOW }
  let s5 := X.ARMul_Reset (X.ARMul_CoProInit s4)
  let s6 := { s5 with NextInstr := X.RESUME, Emulate := 3 }
  let s7 := { s6 with Reg := Function.update s6.Reg 15 0x00000000, pc := 0x00000000 }
  let s8 := { s7 with Reg := Function.update s7.Reg 13 0x10000000 }
  let s9 := { s8 with servaddr := 0xFFFF0000, NirqSig := X.HIGH }
  { state := X.VFPInit s9, ticks := 0 }

/-- `SetPC(pc)`: `state->pc = state->Reg[15] = pc`. -/
def SetPC (cpu : ARM_DynCom L) (pc : Nat) : ARM_DynCom L :=
  { cpu with state := { cpu.state with Reg := Function.update cpu.state.Reg 15 pc, pc := pc } }

/-- `GetPC()`: `return state->Reg[15]`. -/
def GetPC (cpu : ARM_DynCom L) : Nat :=
  cpu.state.Reg 15

/-- `GetReg(index)`: `return state->Reg[index]`.  The source indexes the array
with an `int` and makes no range check; the embedding covers the indices 0-15 of
its doc comment. -/
def GetReg (cpu : ARM_DynCom L) (index : Fin 16) : Nat :=
  cpu.state.Reg index

/-- `SetReg(index, value)`: `state->Reg[index] = value`, for the indices 0-15. -/
def SetReg (cpu : ARM_DynCom L) (index : Fin 16) (value : Nat) : ARM_DynCom L :=
  { cpu with state := { cpu.state with Reg := Function.update cpu.state.Reg index value } }

/-- `GetCPSR()`: `return state->Cpsr`. -/
def GetCPSR (cpu : ARM_DynCom L) : Nat :=
  cpu.state.Cpsr

/-- `SetCPSR(cpsr)`: `state->Cpsr = cpsr`. -/
def SetCPSR (cpu : ARM_DynCom L) (cpsr : Nat) : ARM_DynCom L :=
  { cpu with state := { cpu.state with Cpsr := cpsr } }

/-- `GetTicks()`: `return ticks`. -/
def GetTicks (cpu : ARM_DynCom L) : Nat :=
  cpu.ticks

/-- `ExecuteInstructions(num_instructions)`: store the budget, run the engine,
add its count to the 64-bit tick counter. -/
def ExecuteInstructions (InterpreterMainLoop : Engine L) (cpu : ARM_DynCom L)
    (num_instructions : Int) : ARM_DynCom L :=
  let s1 := { cpu.state with NumInstrsToExecute := num_instructions }
  let r := InterpreterMainLoop s1
  { state := r.1, ticks := (cpu.ticks + r.2) % 2 ^ 64 }

/-- `SaveContext(ctx)`: returns the facade (which it does not write) and the
buffer it has filled. -/
def SaveContext (cpu : ARM_DynCom L) (ctx : ThreadContext L) :
    ARM_DynCom L × ThreadContext L :=
  let c1 := { ctx with
    cpu_registers := memcpy ctx.cpu_registers cpu.state.Reg L.cpuSlots L.cpu_le }
  let c2 := { c1 with
    fpu_registers := memcpy c1.fpu_registers cpu.state.ExtReg L.fpuSlots L.fpu_le }
  let c3 := { c2 with sp := cpu.state.Reg 13, lr := cpu.state.Reg 14,
                      pc := cpu.state.Reg 15, cpsr := cpu.state.Cpsr }
  let c4 := { c3 with fpscr := cpu.state.VFP L.vfp1, fpexc := cpu.state.VFP L.vfp2 }
  (cpu, { c4 with reg_15 := cpu.state.Reg 15, mode := cpu.state.NextInstr })

/-- `LoadContext(ctx)`. -/
def LoadContext (cpu : ARM_DynCom L) (ctx : ThreadContext L) : ARM_DynCom L :=
  let s1 := { cpu.state with
    Reg := memcpy cpu.state.Reg ctx.cpu_registers L.cpuSlots (Nat.le_refl _) }
  let s2 := { s1 with
    ExtReg := memcpy s1.ExtReg ctx.fpu_registers L.fpuSlots (Nat.le_refl _) }
  let s3 := { s2 with Reg := Function.update s2.Reg 13 ctx.sp }
  let s4 := { s3 with Reg := Function.update s3.Reg 14 ctx.lr }
  let s5 := { s4 with pc := ctx.pc, Cpsr := ctx.cpsr }
  let s6 := { s5 with VFP := Function.update s5.VFP L.vfp1 ctx.fpscr }
  let s7 := { s6 with VFP := Function.update s6.VFP L.vfp2 ctx.fpexc }
  let s8 := { s7 with Reg := Function.update s7.Reg 15 ctx.reg_15 }
  { cpu with state := { s8 with NextInstr := ctx.mode } }

/-- `PrepareReschedule()`: `state->NumInstrsToExecute = 0`. -/
def PrepareReschedule (cpu : ARM_DynCom L) : ARM_DynCom L :=
  { cpu with state := { cpu.state with NumInstrsToExecute := 0 } }

/-- The call sequence `SaveContext(buf); LoadContext(buf)` on one buffer. -/
def saveThenLoad (cpu : ARM_DynCom L) (buf : ThreadContext L) : ARM_DynCom L :=
  (cpu.SaveContext buf).1.LoadContext (cpu.SaveContext buf).2

/-- The buffer `out` holds after the call sequence `LoadContext(b); SaveContext(out)`. -/
def loadThenSave (cpu : ARM_DynCom L) (b out : ThreadContext L) : ThreadContext L :=
  ((cpu.LoadContext b).SaveContext out).2

/-- A buffer whose redundant fields agree: `pc` equals the duplicate PC `reg_15`, and
the slots 13, 14 and 15 of the general-register block, in a layout that has them,
repeat `sp`, `lr` and `reg_15`.  `SaveContext` writes such buffers only. -/
def Coherent (b : ThreadContext L) : Prop :=
  b.pc = b.reg_15 ∧
  ∀ i : Fin L.cpuSlots,
    (i.val = 13 → b.cpu_registers i = b.sp) ∧
    (i.val = 14 → b.cpu_registers i = b.lr) ∧
    (i.val = 15 → b.cpu_registers i = b.reg_15)

instance (b : ThreadContext L) : Decidable (Coherent b) :=
  inferInstanceAs (Decidable (_ ∧ _))

/-- The aliasing predicate of the data model: the `pc` field and general register 15
hold the same word. -/
def PcAliased (cpu : ARM_DynCom L) : Prop :=
  cpu.state.pc = cpu.state.Reg 15

instance (cpu : ARM_DynCom L) : Decidable (PcAliased cpu) :=
  inferInstanceAs (Decidable (cpu.state.pc = cpu.state.Reg 15))

/-- One write of the program counter through the accessors: `SetPC(v)` or
`SetReg(15, v)`. -/
inductive PcWrite where
  | setPC (v : Nat)
  | setReg15 (v : Nat)
  deriving DecidableEq, Repr

/-- The argument of the call. -/
def PcWrite.value : PcWrite → Nat
  | .setPC v => v
  | .setReg15 v => v

/-- Performs the call on the facade. -/
def PcWrite.run (cpu : ARM_DynCom L) : PcWrite → ARM_DynCom L
  | .setPC v => cpu.SetPC v
  | .setReg15 v => cpu.SetReg 15 v

/-- Performs a sequence of program-counter writes, first to last. -/
def runPcWrites (cpu : ARM_DynCom L) (ops : List PcWrite) : ARM_DynCom L :=
  ops.foldl PcWrite.run cpu

/-- The processor state the engine is handed by `ExecuteInstructions(n)`: the
register file with the pending budget set to `n`. -/
def engineInput (cpu : ARM_DynCom L) (n : Int) : ARMul_State L :=
  { cpu.state with NumInstrsToExecute := n }

/-- An engine that retires nothing when the pending budget is not positive: it then
leaves the general registers, the `pc` field and CPSR as they are and reports 0. -/
def IdleOnEmptyBudget (engine : Engine L) : Prop :=
  ∀ s : ARMul_State L, s.NumInstrsToExecute ≤ 0 →
    (engine s).1.Reg = s.Reg ∧ (engine s).1.pc = s.pc ∧ (engine s).1.Cpsr = s.Cpsr ∧
    (engine s).2 = 0

/-- The state after `k` consecutive calls of `PrepareReschedule()`. -/
def prepareRescheduleTimes (cpu : ARM_DynCom L) (k : Nat) : ARM_DynCom L :=
  Nat.iterate PrepareReschedule k cpu

/-- The processor state of the constructor when `ARMul_Reset` has returned, before
the assignments that start with `state->NextInstr = RESUME`. -/
def stateAfterReset (X : Externals L) : ARMul_State L :=
  let s0 := zeroState L
  let s1 := X.ARMul_NewState s0
  let s2 := { s1 with abort_model := 0, cpu := some (s_arm11_cpu_info X.NONCACHE),
                      bigendSig := X.LOW }
  let s3 := X.ARMul_SelectProcessor s2 (X.ARM_v6_Prop ||| X.ARM_v5_Prop ||| X.ARM_v5e_Prop)
  let s4 := { s3 with lateabtSig := X.LOW }
  X.ARMul_Reset (X.ARMul_CoProInit s4)

/-- The reset value of the status register: what the reset sequence up to and
including `ARMul_Reset` leaves in `Cpsr`. -/
def resetCpsr (X : Externals L) : Nat :=
  (stateAfterReset X).Cpsr

/-- Modelled from the spec: `ARMul_NewState`, `ARMul_SelectProcessor`,
`ARMul_CoProInit`, `ARMul_Reset` and `VFPInit` are defined outside this source
file.  By section 4.1 the register file is zero-filled, steps 2 to 5 configure the
processor model, the signals, the feature profile and the co-processor state, and
only steps 6 and 7 give general registers a value; by section 8 every general
register other than 13 is 0 after construction.  So the initialisers that run
before the explicit assignments leave the general registers other than 13 and 15
at the zero of the zero-filled block, and `VFPInit`, which runs after them, changes
floating-point state only: it keeps the general registers, the `pc` field and
`Cpsr`. -/
def InitPerSpec (X : Externals L) : Prop :=
  (∀ i : Fin 16, i ≠ 13 → i ≠ 15 → (stateAfterReset X).Reg i = 0) ∧
  (∀ s : ARMul_State L,
    (X.VFPInit s).Reg = s.Reg ∧ (X.VFPInit s).pc = s.pc ∧ (X.VFPInit s).Cpsr = s.Cpsr)

/-- The ways a call of `GetReg` or `SetReg` with the raw `int` index of the source
can end.  `done` carries the result of an access inside `Reg`.  `outOfBounds` is
the access `state->Reg[index]` past either end of the array, which the source
makes unchecked and whose effect the language does not define.
`assertionFailure` is a fatal assertion: neither accessor contains one, and the
constructor is here so that this can be stated. -/
inductive Outcome (α : Type) where
  | done (a : α)
  | outOfBounds
  | assertionFailure

/-- `GetReg(index)` with the `int` index of the source: `return state->Reg[index]`,
no range check. -/
def GetRegRaw (cpu : ARM_DynCom L) (index : Int) : Outcome Nat :=
  if h : 0 ≤ index ∧ index < 16 then
    .done (cpu.GetReg ⟨index.toNat, by omega⟩)
  else .outOfBounds

/-- `SetReg(index, value)` with the `int` index of the source:
`state->Reg[index] = value`, no range check. -/
def SetRegRaw (cpu : ARM_DynCom L) (index : Int) (value : Nat) : Outcome (ARM_DynCom L) :=
  if h : 0 ≤ index ∧ index < 16 then
    .done (cpu.SetReg ⟨index.toNat, by omega⟩ value)
  else .outOfBounds

/-- The facade states a host can bring about without entering the engine: the
constructed state and everything `SetPC`, `SetReg`, `SetCPSR`, `LoadContext` and
`PrepareReschedule` make of such a state. -/
inductive Reachable (X : Externals L) : ARM_DynCom L → Prop
  | construct : Reachable X (new X)
  | setPC {cpu : ARM_DynCom L} (v : Nat) : Reachable X cpu → Reachable X (cpu.SetPC v)
  | setReg {cpu : ARM_DynCom L} (i : Fin 16) (v : Nat) :
      Reachable X cpu → Reachable X (cpu.SetReg i v)
  | setCPSR {cpu : ARM_DynCom L} (v : Nat) : Reachable X cpu → Reachable X (cpu.SetCPSR v)
  | loadContext {cpu : ARM_DynCom L} (ctx : ThreadContext L) :
      Reachable X cpu → Reachable X (cpu.LoadContext ctx)
  | prepareReschedule {cpu : ARM_DynCom L} :
      Reachable X cpu → Reachable X cpu.PrepareReschedule

end ARM_DynCom

/-! ## Concrete inputs -/

/-- A layout whose general-register block has sixteen slots and whose
floating-point block covers every extended register. -/
def layout16 : Layout :=
  ⟨16, 32, 32, 3, by decide, by decide, by decide, by decide⟩

/-- A layout whose general-register block has thirteen slots (r0-r12, the others
travelling in `sp`, `lr` and `reg_15`) and whose floating-point block covers half
of the extended registers. -/
def layout13 : Layout :=
  ⟨13, 32, 64, 3, by decide, by decide, by decide, by decide⟩

/-- An instance of the externals for evaluating the facade on concrete inputs:
the initialisers of the other translation units leave the state as they find it
and the constants have sample values. -/
def plainExternals (L : Layout) : Externals L :=
  { ARMul_NewState := fun s => s
    ARMul_SelectProcessor := fun s _ => s
    ARMul_CoProInit := fun s => s
    ARMul_Reset := fun s => s
    VFPInit := fun s => s
    LOW := 0
    HIGH := 1
    RESUME := 8
    NONCACHE := 0
    ARM_v6_Prop := 0x100
    ARM_v5_Prop := 0x80
    ARM_v5e_Prop := 0x40 }

/-- One instruction of the evaluation engine: the program counter, in general
register 15 and in the `pc` field, advances by four. -/
def stepPc {L : Layout} (s : ARMul_State L) : ARMul_State L :=
  let next := (s.Reg 15 + 4) % 2 ^ 32
  { s with Reg := Function.update s.Reg 15 next, pc := next }

/-- A deterministic engine for evaluation, in the manner of the fake engine of the
design notes: it retires as many instructions as the pending budget asks for, none
when the budget is not positive, and reports their number. -/
def steppingEngine (L : Layout) : Engine L := fun s =>
  let k := s.NumInstrsToExecute.toNat
  (Nat.iterate stepPc k s, k)

/-- An engine that pays no attention to the pending budget: every call retires one
instruction, which writes 7 to general register 0 and advances the program counter. -/
def eagerEngine (L : Layout) : Engine L := fun s =>
  let next := (s.Reg 15 + 4) % 2 ^ 32
  ({ s with Reg := Function.update (Function.update s.Reg 0 7) 15 next, pc := next }, 1)

/-- A buffer with every word zero. -/
def zeroContext (L : Layout) : ThreadContext L :=
  { cpu_registers := fun _ => 0, fpu_registers := fun _ => 0, sp := 0, lr := 0, pc := 0,
    cpsr := 0, fpscr := 0, fpexc := 0, reg_15 := 0, mode := 0 }

/-- A buffer as `SaveContext` leaves it on the constructed facade after `SetPC(8)`,
in the sixteen-slot layout. -/
def savedContext16 : ThreadContext layout16 :=
  ((ARM_DynCom.new (plainExternals layout16)).SetPC 8).SaveContext (zeroContext layout16) |>.2

/-- A buffer whose `pc` field (0) and duplicate-PC field (4) differ. -/
def splitPcContext (L : Layout) : ThreadContext L :=
  { zeroContext L with reg_15 := 4 }

/-- The constructed facade in the sixteen-slot layout. -/
def fresh16 : ARM_DynCom layout16 :=
  ARM_DynCom.new (plainExternals layout16)

/-- The constructed facade in the thirteen-slot layout. -/
def fresh13 : ARM_DynCom layout13 :=
  ARM_DynCom.new (plainExternals layout13)

/-- The constructed facade with the tick counter at its largest value. -/
def lastTick16 : ARM_DynCom layout16 :=
  { fresh16 with ticks := 2 ^ 64 - 1 }

/-! ## Properties -/

namespace ARM_DynCom

variable {L : Layout}

theorem loadContext_reg (cpu : ARM_DynCom L) (ctx : ThreadContext L) (i : Fin 16) :
    (cpu.LoadContext ctx).state.Reg i =
      if i = 15 then ctx.reg_15 else if i = 14 then ctx.lr else if i = 13 then ctx.sp
      else if h : i.val < L.cpuSlots then ctx.cpu_registers ⟨i.val, h⟩ else cpu.state.Reg i := by
  simp only [LoadContext, Function.update_apply, memcpy]

theorem saveThenLoad_eq (cpu : ARM_DynCom L) (buf : ThreadContext L) :
    cpu.saveThenLoad buf = { cpu with state := { cpu.state with pc := cpu.state.Reg 15 } } := by
  have hR : ∀ i, (cpu.saveThenLoad buf).state.Reg i = cpu.state.Reg i := by
    intro i
    rw [saveThenLoad, loadContext_reg]
    simp only [SaveContext, memcpy]
    split_ifs with h1 h2 h3 h4 <;> simp_all
  have hE : ∀ j, (cpu.saveThenLoad buf).state.ExtReg j = cpu.state.ExtReg j := by
    intro j
    simp only [saveThenLoad, LoadContext, SaveContext, memcpy]
    split_ifs <;> rfl
  have hV : ∀ k, (cpu.saveThenLoad buf).state.VFP k = cpu.state.VFP k := by
    intro k
    simp only [saveThenLoad, LoadContext, SaveContext, Function.update_apply]
    split_ifs with h1 h2 <;> simp_all
  apply ARM_DynCom.ext
  · apply ARMul_State.ext
    · exact funext hR
    · rfl
    · rfl
    · exact funext hE
    · exact funext hV
    all_goals rfl
  · rfl

theorem saveContext_coherent (cpu : ARM_DynCom L) (ctx : ThreadContext L) :
    Coherent (cpu.SaveContext ctx).2 := by
  refine ⟨rfl, fun i => ⟨fun h => ?_, fun h => ?_, fun h => ?_⟩⟩
  all_goals
    simp only [SaveContext, memcpy, i.isLt, dite_true]
    exact congrArg cpu.state.Reg (Fin.ext h)

theorem loadThenSave_pc (cpu : ARM_DynCom L) (b out : ThreadContext L) :
    (cpu.loadThenSave b out).pc = b.reg_15 := by
  simp [loadThenSave, LoadContext, SaveContext]

theorem loadThenSave_cpu_registers (cpu : ARM_DynCom L) (b out : ThreadContext L)
    (i : Fin L.cpuSlots) :
    (cpu.loadThenSave b out).cpu_registers i =
      if i.val = 15 then b.reg_15 else if i.val = 14 then b.lr
      else if i.val = 13 then b.sp else b.cpu_registers i := by
  have h16 : i.val < 16 := Nat.lt_of_lt_of_le i.isLt L.cpu_le
  have hv : ∀ k : Fin 16, ((⟨i.val, h16⟩ : Fin 16) = k) ↔ i.val = k.val := by
    intro k
    constructor
    · intro h; rw [← h]
    · intro h; exact Fin.ext h
  simp only [loadThenSave, SaveContext, memcpy, i.isLt, dite_true]
  rw [loadContext_reg]
  simp only [hv, i.isLt, dite_true]
  rfl

/-- C1 (amended): for every facade state and buffer, `SaveContext(buf)` followed
by `LoadContext(buf)` keeps every general register 0-15, every extended register,
CPSR, the VFP words, the resume marker `NextInstr` and the tick count, and leaves
general register 15 in the `pc` field; on a state whose `pc` field equals general
register 15 the sequence changes nothing at all. -/
theorem save_load_round_trip (cpu : ARM_DynCom L) (buf : ThreadContext L) :
    (∀ i : Fin 16, (cpu.saveThenLoad buf).GetReg i = cpu.GetReg i) ∧
    (cpu.saveThenLoad buf).state.ExtReg = cpu.state.ExtReg ∧
    (cpu.saveThenLoad buf).GetCPSR = cpu.GetCPSR ∧
    (cpu.saveThenLoad buf).state.VFP = cpu.state.VFP ∧
    (cpu.saveThenLoad buf).state.NextInstr = cpu.state.NextInstr ∧
    (cpu.saveThenLoad buf).GetTicks = cpu.GetTicks ∧
    (cpu.saveThenLoad buf).state.pc = cpu.state.Reg 15 ∧
    (PcAliased cpu → cpu.saveThenLoad buf = cpu) := by
  rw [saveThenLoad_eq]
  refine ⟨fun _ => rfl, rfl, rfl, rfl, rfl, rfl, rfl, fun h => ?_⟩
  apply ARM_DynCom.ext
  · apply ARMul_State.ext
    · rfl
    · exact h.symm
    all_goals rfl
  · rfl

/-- C1 (witness): on the constructed facade after `SetPC(8)`, whose `pc` field and
general register 15 agree, save-then-load returns the very same state. -/
theorem save_load_round_trip_after_setPC :
    PcAliased (fresh16.SetPC 8) ∧
    (fresh16.SetPC 8).saveThenLoad (zeroContext layout16) = fresh16.SetPC 8 :=
  ⟨by decide,
   (save_load_round_trip (fresh16.SetPC 8) (zeroContext layout16)).2.2.2.2.2.2.2 (by decide)⟩

/-- C1 (counterexample): the state constructed and then given `SetReg(15, 4)` is
reachable, its `pc` field is 0, and after save-then-load its `pc` field is 4; the
same holds of the state constructed and then given `LoadContext` of the buffer
with `pc = 0` and `reg_15 = 4`. -/
theorem save_load_moves_pc_field :
    Reachable (plainExternals layout16) (fresh16.SetReg 15 4) ∧
    (fresh16.SetReg 15 4).state.pc = 0 ∧
    ((fresh16.SetReg 15 4).saveThenLoad (zeroContext layout16)).state.pc = 4 ∧
    Reachable (plainExternals layout16) (fresh16.LoadContext (splitPcContext layout16)) ∧
    (fresh16.LoadContext (splitPcContext layout16)).state.pc = 0 ∧
    ((fresh16.LoadContext (splitPcContext layout16)).saveThenLoad
      (zeroContext layout16)).state.pc = 4 :=
  ⟨Reachable.setReg 15 4 Reachable.construct, by decide, by decide,
   Reachable.loadContext (splitPcContext layout16) Reachable.construct, by decide, by decide⟩

/-- C2 (amended): for every facade state and every buffer `b` whose `pc` equals its
`reg_15` and whose general-register slots 13-15, where the layout has them, repeat
`sp`, `lr` and `reg_15`, `LoadContext(b)` followed by `SaveContext(out)` makes
`out` equal to `b` in every field. -/
theorem load_save_round_trip (cpu : ARM_DynCom L) (b out : ThreadContext L)
    (hb : Coherent b) : cpu.loadThenSave b out = b := by
  obtain ⟨hpc, hslots⟩ := hb
  apply ThreadContext.ext
  · funext i
    rw [loadThenSave_cpu_registers]
    obtain ⟨h13, h14, h15⟩ := hslots i
    split_ifs with h1 h2 h3
    · exact (h15 h1).symm
    · exact (h14 h2).symm
    · exact (h13 h3).symm
    · rfl
  · funext j
    simp [loadThenSave, LoadContext, SaveContext, memcpy]
  · simp [loadThenSave, LoadContext, SaveContext]
  · simp [loadThenSave, LoadContext, SaveContext]
  · rw [loadThenSave_pc, hpc]
  · simp [loadThenSave, LoadContext, SaveContext]
  · simp [loadThenSave, LoadContext, SaveContext, Layout.vfp1, Layout.vfp2]
  · simp [loadThenSave, LoadContext, SaveContext]
  · simp [loadThenSave, LoadContext, SaveContext]
  · simp [loadThenSave, LoadContext, SaveContext]

/-- C2 (witness): the buffer saved from the constructed facade after `SetPC(8)` is
coherent, and loading it into another state and saving again returns it. -/
theorem load_save_round_trip_of_saved :
    Coherent savedContext16 ∧
    (fresh16.SetReg 0 7).loadThenSave savedContext16 (zeroContext layout16) = savedContext16 :=
  ⟨by decide, load_save_round_trip (fresh16.SetReg 0 7) savedContext16 (zeroContext layout16)
    (by decide)⟩

/-- C2 (counterexample): loading the buffer with `pc = 0`, `reg_15 = 4` and saving
again yields `pc = 4`, in the sixteen-slot and in the thirteen-slot layout. -/
theorem load_save_rewrites_pc :
    (splitPcContext layout16).pc = 0 ∧
    (fresh16.loadThenSave (splitPcContext layout16) (zeroContext layout16)).pc = 4 ∧
    (splitPcContext layout13).pc = 0 ∧
    (fresh13.loadThenSave (splitPcContext layout13) (zeroContext layout13)).pc = 4 :=
  ⟨by decide, by decide, by decide, by decide⟩

/-- C3: for every facade state, buffer, register index `i` in 0-15 and values `v`,
`w`, the sequence `SetReg(i, v); SaveContext(ctx); SetReg(i, w); LoadContext(ctx)`
leaves `GetReg(i) = v`. -/
theorem saved_register_restored (cpu : ARM_DynCom L) (ctx : ThreadContext L) (i : Fin 16)
    (v w : Nat) :
    ((((cpu.SetReg i v).SaveContext ctx).1.SetReg i w).LoadContext
        ((cpu.SetReg i v).SaveContext ctx).2).GetReg i = v := by
  rw [GetReg, loadContext_reg]
  simp only [SaveContext, SetReg, memcpy, Function.update_apply]
  by_cases h15 : i = 15
  · simp [h15]
  by_cases h14 : i = 14
  · simp [h14]
  by_cases h13 : i = 13
  · simp [h13]
  have hlt : i.val < L.cpuSlots := by
    have hge := L.cpu_ge
    have hi := i.isLt
    have e15 : i.val ≠ 15 := fun h => h15 (Fin.ext h)
    have e14 : i.val ≠ 14 := fun h => h14 (Fin.ext h)
    have e13 : i.val ≠ 13 := fun h => h13 (Fin.ext h)
    omega
  simp [h15, h14, h13, hlt]

/-- C3 (scenario): construct, `SetReg(13, 0x10000000)`, `SaveContext(ctxA)`,
`SetReg(13, 0)`, `LoadContext(ctxA)`, then `GetReg(13) = 0x10000000`. -/
theorem saved_register_restored_scenario :
    ((((fresh16.SetReg 13 0x10000000).SaveContext (zeroContext layout16)).1.SetReg 13 0).LoadContext
        ((fresh16.SetReg 13 0x10000000).SaveContext (zeroContext layout16)).2).GetReg 13
      = 0x10000000 :=
  saved_register_restored fresh16 (zeroContext layout16) 13 0x10000000 0

theorem runPcWrites_concat (cpu : ARM_DynCom L) (ops : List PcWrite) (op : PcWrite) :
    (runPcWrites cpu (ops ++ [op])).state.Reg 15 = op.value := by
  rw [runPcWrites, List.foldl_append]
  cases op <;> simp [PcWrite.run, PcWrite.value, SetPC, SetReg]

/-- C4 (amended): the predicate `pc == Reg[15]` holds after construction (the
floating-point initialiser being one that leaves both alone), holds after every
`SetPC`, and is preserved by `SetReg` for the indices 0-14, by `SetCPSR`, by
`SaveContext`, by `PrepareReschedule`, and established by `LoadContext` of every
buffer whose `pc` equals its `reg_15`. -/
theorem pc_alias_preserved :
    (∀ X : Externals L,
      (∀ s, (X.VFPInit s).pc = s.pc ∧ (X.VFPInit s).Reg 15 = s.Reg 15) → PcAliased (new X)) ∧
    (∀ (cpu : ARM_DynCom L) (v : Nat), PcAliased (cpu.SetPC v)) ∧
    (∀ (cpu : ARM_DynCom L) (i : Fin 16) (v : Nat),
      i ≠ 15 → PcAliased cpu → PcAliased (cpu.SetReg i v)) ∧
    (∀ (cpu : ARM_DynCom L) (c : Nat), PcAliased cpu → PcAliased (cpu.SetCPSR c)) ∧
    (∀ (cpu : ARM_DynCom L) (ctx : ThreadContext L),
      PcAliased cpu → PcAliased (cpu.SaveContext ctx).1) ∧
    (∀ (cpu : ARM_DynCom L) (ctx : ThreadContext L),
      ctx.pc = ctx.reg_15 → PcAliased (cpu.LoadContext ctx)) ∧
    (∀ cpu : ARM_DynCom L, PcAliased cpu → PcAliased cpu.PrepareReschedule) := by
  refine ⟨?_, ?_, ?_, ?_, ?_, ?_, ?_⟩
  · intro X hX
    simp only [PcAliased, new]
    rw [(hX _).1, (hX _).2]
    simp
  · intro cpu v
    simp [PcAliased, SetPC]
  · intro cpu i v hi h
    simp only [PcAliased, SetReg]
    rw [Function.update_noteq (Ne.symm hi)]
    exact h
  · intro cpu c h
    exact h
  · intro cpu ctx h
    exact h
  · intro cpu ctx h
    simp only [PcAliased]
    rw [loadContext_reg]
    simp [LoadContext, h]
  · intro cpu h
    exact h

/-- C4 (witness): every part of the invariant, at the constructed facade of the
sixteen-slot layout and at a buffer written by `SaveContext`. -/
theorem pc_alias_preserved_on_fresh :
    PcAliased fresh16 ∧ PcAliased (fresh16.SetPC 8) ∧ PcAliased (fresh16.SetReg 13 5) ∧
    PcAliased (fresh16.SetCPSR 0x10) ∧ PcAliased (fresh16.SaveContext (zeroContext layout16)).1 ∧
    PcAliased (fresh16.LoadContext savedContext16) ∧ PcAliased fresh16.PrepareReschedule :=
  have h := @pc_alias_preserved layout16
  have h0 : PcAliased fresh16 := h.1 (plainExternals layout16) (fun _ => ⟨rfl, rfl⟩)
  ⟨h0, h.2.1 fresh16 8, h.2.2.1 fresh16 13 5 (by decide) h0, h.2.2.2.1 fresh16 0x10 h0,
   h.2.2.2.2.1 fresh16 (zeroContext layout16) h0,
   h.2.2.2.2.2.1 fresh16 savedContext16 (by decide), h.2.2.2.2.2.2 fresh16 h0⟩

/-- C4 (counterexample): the constructed facade satisfies `pc == Reg[15]`;
`SetReg(15, 4)` breaks it, and so does `LoadContext` of the buffer with `pc = 0`
and `reg_15 = 4`. -/
theorem pc_alias_broken :
    PcAliased fresh16 ∧ ¬ PcAliased (fresh16.SetReg 15 4) ∧
    ¬ PcAliased (fresh16.LoadContext (splitPcContext layout16)) :=
  ⟨by decide, by decide, by decide⟩

/-- C5: after every non-empty sequence of calls each of which is `SetPC(x)` or
`SetReg(15, x)`, from every facade state, `GetPC()` and `GetReg(15)` both return
the argument of the last call. -/
theorem pc_writes_last_wins (cpu : ARM_DynCom L) (ops : List PcWrite) (h : ops ≠ []) :
    (runPcWrites cpu ops).GetPC = (ops.getLast h).value ∧
    (runPcWrites cpu ops).GetReg 15 = (ops.getLast h).value := by
  have hk := runPcWrites_concat cpu ops.dropLast (ops.getLast h)
  rw [List.dropLast_append_getLast h] at hk
  exact ⟨hk, hk⟩

/-- C5 (witness): `SetReg(15, 4); SetPC(8); SetReg(15, 12)` on the constructed
facade leaves `GetPC() = GetReg(15) = 12`. -/
theorem pc_writes_last_wins_on_fresh :
    (runPcWrites fresh16 [.setReg15 4, .setPC 8, .setReg15 12]).GetPC = 12 ∧
    (runPcWrites fresh16 [.setReg15 4, .setPC 8, .setReg15 12]).GetReg 15 = 12 :=
  pc_writes_last_wins fresh16 [.setReg15 4, .setPC 8, .setReg15 12] (by decide)

/-- C6 (amended): for every facade state and every buffer `b` whose `pc` equals its
`reg_15`, after `LoadContext(b)` the `pc` field and general register 15 are equal. -/
theorem load_aligns_pc (cpu : ARM_DynCom L) (b : ThreadContext L) (hb : b.pc = b.reg_15) :
    (cpu.LoadContext b).state.pc = (cpu.LoadContext b).state.Reg 15 := by
  rw [loadContext_reg]
  simp [LoadContext, hb]

/-- C6 (witness): the buffer saved after `SetPC(8)` has `pc = reg_15`, and loading
it into a facade whose two fields disagree makes them agree. -/
theorem load_aligns_pc_of_saved :
    savedContext16.pc = savedContext16.reg_15 ∧
    ((fresh16.SetReg 15 4).LoadContext savedContext16).state.pc =
      ((fresh16.SetReg 15 4).LoadContext savedContext16).state.Reg 15 :=
  ⟨by decide, load_aligns_pc (fresh16.SetReg 15 4) savedContext16 (by decide)⟩

/-- C6 (counterexample): after `LoadContext` of the buffer with `pc = 0` and
`reg_15 = 4` the `pc` field is 0 and general register 15 is 4. -/
theorem load_splits_pc :
    (fresh13.LoadContext (splitPcContext layout13)).state.pc = 0 ∧
    (fresh13.LoadContext (splitPcContext layout13)).state.Reg 15 = 4 :=
  ⟨by decide, by decide⟩

/-- C7 (amended): `SaveContext(ctx)` fills the buffer from the register file: each
general-register slot and each extended-register slot holds the register of the
same index, `sp = Reg[13]`, `lr = Reg[14]`, `pc = Reg[15]` (general register 15,
not the `pc` field), `cpsr = Cpsr`, `fpscr = VFP[1]`, `fpexc = VFP[2]`,
`reg_15 = Reg[15]`, `mode = NextInstr`; the facade state is not written. -/
theorem save_fills_buffer (cpu : ARM_DynCom L) (ctx : ThreadContext L) :
    (∀ i : Fin L.cpuSlots,
      (cpu.SaveContext ctx).2.cpu_registers i = cpu.state.Reg (Fin.castLE L.cpu_le i)) ∧
    (∀ j : Fin L.fpuSlots,
      (cpu.SaveContext ctx).2.fpu_registers j = cpu.state.ExtReg (Fin.castLE L.fpu_le j)) ∧
    (cpu.SaveContext ctx).2.sp = cpu.state.Reg 13 ∧
    (cpu.SaveContext ctx).2.lr = cpu.state.Reg 14 ∧
    (cpu.SaveContext ctx).2.pc = cpu.state.Reg 15 ∧
    (cpu.SaveContext ctx).2.cpsr = cpu.state.Cpsr ∧
    (cpu.SaveContext ctx).2.fpscr = cpu.state.VFP L.vfp1 ∧
    (cpu.SaveContext ctx).2.fpexc = cpu.state.VFP L.vfp2 ∧
    (cpu.SaveContext ctx).2.reg_15 = cpu.state.Reg 15 ∧
    (cpu.SaveContext ctx).2.mode = cpu.state.NextInstr ∧
    (cpu.SaveContext ctx).1 = cpu := by
  refine ⟨fun i => ?_, fun j => ?_, rfl, rfl, rfl, rfl, rfl, rfl, rfl, rfl, rfl⟩
  · simp only [SaveContext, memcpy, i.isLt, dite_true]
    rfl
  · simp only [SaveContext, memcpy, j.isLt, dite_true]
    rfl

/-- C7 (counterexample): after `SetReg(15, 4)` on the constructed facade the `pc`
field is 0, and `SaveContext` writes 4 into `ctx.pc`; likewise after `LoadContext`
of the buffer with `pc = 0` and `reg_15 = 4`. -/
theorem save_pc_is_reg15 :
    (fresh13.SetReg 15 4).state.pc = 0 ∧
    ((fresh13.SetReg 15 4).SaveContext (zeroContext layout13)).2.pc = 4 ∧
    (fresh13.LoadContext (splitPcContext layout13)).state.pc = 0 ∧
    ((fresh13.LoadContext (splitPcContext layout13)).SaveContext (zeroContext layout13)).2.pc
      = 4 :=
  ⟨by decide, by decide, by decide, by decide⟩

theorem steppingEngine_idle (L : Layout) : IdleOnEmptyBudget (steppingEngine L) := by
  intro s hs
  have hk : s.NumInstrsToExecute.toNat = 0 := Int.toNat_eq_zero.mpr hs
  simp [steppingEngine, hk]

/-- C8 (amended): for every facade state whose tick count is a 64-bit value, every
budget `n ≤ 0` and every engine that retires nothing on a non-positive pending
budget, `ExecuteInstructions(n)` leaves every general register, the program
counter, the status register and the tick count unchanged. -/
theorem execute_nonpositive_budget (engine : Engine L) (cpu : ARM_DynCom L) (n : Int)
    (hn : n ≤ 0) (ht : cpu.ticks < 2 ^ 64) (he : IdleOnEmptyBudget engine) :
    (∀ i : Fin 16, (cpu.ExecuteInstructions engine n).GetReg i = cpu.GetReg i) ∧
    (cpu.ExecuteInstructions engine n).state.pc = cpu.state.pc ∧
    (cpu.ExecuteInstructions engine n).GetPC = cpu.GetPC ∧
    (cpu.ExecuteInstructions engine n).GetCPSR = cpu.GetCPSR ∧
    (cpu.ExecuteInstructions engine n).GetTicks = cpu.GetTicks := by
  obtain ⟨hR, hpc, hC, h0⟩ := he (cpu.engineInput n) hn
  simp only [engineInput] at hR hpc hC h0
  refine ⟨fun i => ?_, ?_, ?_, ?_, ?_⟩
  · simp only [GetReg, ExecuteInstructions, hR]
  · simp only [ExecuteInstructions, hpc]
  · simp only [GetPC, ExecuteInstructions, hR]
  · simp only [GetCPSR, ExecuteInstructions, hC]
  · simp only [GetTicks, ExecuteInstructions, h0, Nat.add_zero]
    exact Nat.mod_eq_of_lt ht

/-- C8 (witness): the stepping engine retires nothing on a non-positive budget, and
`ExecuteInstructions(-1)` with it leaves the constructed facade as it was. -/
theorem execute_nonpositive_budget_on_fresh :
    IdleOnEmptyBudget (steppingEngine layout16) ∧
    (∀ i : Fin 16,
      (fresh16.ExecuteInstructions (steppingEngine layout16) (-1)).GetReg i = fresh16.GetReg i) ∧
    (fresh16.ExecuteInstructions (steppingEngine layout16) (-1)).GetTicks = 0 :=
  have h := execute_nonpositive_budget (steppingEngine layout16) fresh16 (-1) (by decide)
    (by decide) (steppingEngine_idle layout16)
  ⟨steppingEngine_idle layout16, h.1, h.2.2.2.2⟩

/-- C8 (counterexample): with the engine that ignores the budget, both
`ExecuteInstructions(0)` and `ExecuteInstructions(-1)` on the constructed facade
change general register 0 from 0 to 7 and the tick count from 0 to 1. -/
theorem execute_nonpositive_budget_runs :
    fresh16.GetReg 0 = 0 ∧ fresh16.GetTicks = 0 ∧
    (fresh16.ExecuteInstructions (eagerEngine layout16) 0).GetReg 0 = 7 ∧
    (fresh16.ExecuteInstructions (eagerEngine layout16) 0).GetTicks = 1 ∧
    (fresh16.ExecuteInstructions (eagerEngine layout16) (-1)).GetReg 0 = 7 ∧
    (fresh16.ExecuteInstructions (eagerEngine layout16) (-1)).GetTicks = 1 :=
  ⟨by decide, by decide, by decide, by decide, by decide, by decide⟩

/-- C9: for every facade state with tick count `t`, every engine and every budget
`n`, `ExecuteInstructions(n)` hands the engine the register file with the pending
budget set to `n` and nothing else changed, takes the register file the engine
returns, and sets the tick count to `t` plus the reported count modulo `2 ^ 64`. -/
theorem execute_delegates (engine : Engine L) (cpu : ARM_DynCom L) (n : Int) :
    (cpu.engineInput n).NumInstrsToExecute = n ∧
    cpu.engineInput n = { cpu.state with NumInstrsToExecute := n } ∧
    (cpu.ExecuteInstructions engine n).state = (engine (cpu.engineInput n)).1 ∧
    (cpu.ExecuteInstructions engine n).GetTicks =
      (cpu.GetTicks + (engine (cpu.engineInput n)).2) % 2 ^ 64 :=
  ⟨rfl, rfl, rfl, rfl⟩

/-- C10 (amended): for every facade state, engine and budget (in particular every
`n > 0`, at every call of a sequence), if the tick count plus the count the engine
reports stays below `2 ^ 64`, the tick count after `ExecuteInstructions(n)` is at
least the tick count before, and strictly greater when the engine reports at least
one executed instruction. -/
theorem ticks_monotone (engine : Engine L) (cpu : ARM_DynCom L) (n : Int)
    (hfit : cpu.GetTicks + (engine (cpu.engineInput n)).2 < 2 ^ 64) :
    cpu.GetTicks ≤ (cpu.ExecuteInstructions engine n).GetTicks ∧
    (1 ≤ (engine (cpu.engineInput n)).2 →
      cpu.GetTicks < (cpu.ExecuteInstructions engine n).GetTicks) := by
  have hsum : (cpu.ExecuteInstructions engine n).GetTicks =
      cpu.GetTicks + (engine (cpu.engineInput n)).2 := Nat.mod_eq_of_lt hfit
  rw [hsum]
  exact ⟨Nat.le_add_right _ _, fun h => by omega⟩

/-- C10 (witness): on the constructed facade the stepping engine with budget 3
reports 3, and the tick count goes from 0 to 3. -/
theorem ticks_monotone_on_fresh :
    (steppingEngine layout16 (fresh16.engineInput 3)).2 = 3 ∧
    fresh16.GetTicks < (fresh16.ExecuteInstructions (steppingEngine layout16) 3).GetTicks :=
  ⟨by decide,
   (ticks_monotone (steppingEngine layout16) fresh16 3 (by decide)).2 (by decide)⟩

/-- C10 (counterexample): at tick count `2 ^ 64 - 1` the stepping engine with budget
1 reports one executed instruction and the tick count afterwards is 0. -/
theorem ticks_wrap_around :
    lastTick16.GetTicks = 2 ^ 64 - 1 ∧
    (steppingEngine layout16 (lastTick16.engineInput 1)).2 = 1 ∧
    (lastTick16.ExecuteInstructions (steppingEngine layout16) 1).GetTicks = 0 :=
  ⟨by decide, by decide, by decide⟩

theorem prepareReschedule_twice (cpu : ARM_DynCom L) :
    cpu.PrepareReschedule.PrepareReschedule = cpu.PrepareReschedule := rfl

theorem prepareRescheduleTimes_succ (cpu : ARM_DynCom L) (k : Nat) :
    cpu.prepareRescheduleTimes (k + 1) = cpu.PrepareReschedule := by
  induction k generalizing cpu with
  | zero => rfl
  | succ k ih =>
    have h : cpu.prepareRescheduleTimes (k + 1 + 1) =
        cpu.PrepareReschedule.prepareRescheduleTimes (k + 1) := rfl
    rw [h, ih, prepareReschedule_twice]

/-- C11: for every facade state and every `k ≥ 1`, `k` consecutive calls of
`PrepareReschedule()` yield the state one call yields: the pending instruction
budget is 0 and every other field (general registers, `pc`, CPSR, extended and VFP
registers, resume marker, the remaining fields, tick count) is as before the first
call. -/
theorem prepare_reschedule_idempotent (cpu : ARM_DynCom L) (k : Nat) (hk : 1 ≤ k) :
    cpu.prepareRescheduleTimes k = cpu.PrepareReschedule ∧
    (cpu.prepareRescheduleTimes k).state.NumInstrsToExecute = 0 ∧
    cpu.prepareRescheduleTimes k =
      { cpu with state := { cpu.state with NumInstrsToExecute := 0 } } ∧
    (∀ i : Fin 16, (cpu.prepareRescheduleTimes k).GetReg i = cpu.GetReg i) ∧
    (cpu.prepareRescheduleTimes k).state.pc = cpu.state.pc ∧
    (cpu.prepareRescheduleTimes k).GetPC = cpu.GetPC ∧
    (cpu.prepareRescheduleTimes k).GetCPSR = cpu.GetCPSR ∧
    (cpu.prepareRescheduleTimes k).state.ExtReg = cpu.state.ExtReg ∧
    (cpu.prepareRescheduleTimes k).state.VFP = cpu.state.VFP ∧
    (cpu.prepareRescheduleTimes k).state.NextInstr = cpu.state.NextInstr ∧
    (cpu.prepareRescheduleTimes k).GetTicks = cpu.GetTicks := by
  obtain ⟨m, rfl⟩ : ∃ m, k = m + 1 := ⟨k - 1, by omega⟩
  rw [prepareRescheduleTimes_succ]
  exact ⟨rfl, rfl, rfl, fun _ => rfl, rfl, rfl, rfl, rfl, rfl, rfl, rfl⟩

/-- C11 (witness): three calls of `PrepareReschedule()` after `ExecuteInstructions(5)`
on the constructed facade leave the budget at 0 and the tick count at 5. -/
theorem prepare_reschedule_idempotent_thrice :
    ((fresh16.ExecuteInstructions (steppingEngine layout16) 5).prepareRescheduleTimes 3).state.NumInstrsToExecute = 0 ∧
    ((fresh16.ExecuteInstructions (steppingEngine layout16) 5).prepareRescheduleTimes 3).GetTicks = 5 :=
  have h := prepare_reschedule_idempotent
    (fresh16.ExecuteInstructions (steppingEngine layout16) 5) 3 (by decide)
  ⟨h.2.1, h.2.2.2.2.2.2.2.2.2.2.trans (by decide)⟩

theorem plainExternals_perSpec (L : Layout) : InitPerSpec (plainExternals L) :=
  ⟨fun _ _ _ => rfl, fun _ => ⟨rfl, rfl, rfl⟩⟩

theorem new_reg (X : Externals L) (hX : InitPerSpec X) (i : Fin 16) :
    (new X).state.Reg i = if i = 13 then 0x10000000 else 0 := by
  obtain ⟨hR, hV⟩ := hX
  simp only [new]
  rw [(hV _).1]
  simp only [Function.update_apply]
  split_ifs with h13 h15
  · rfl
  · rfl
  · exact hR i h13 h15

theorem new_pc (X : Externals L) (hX : InitPerSpec X) : (new X).state.pc = 0 := by
  simp only [new]
  rw [(hX.2 _).2.1]

theorem new_cpsr (X : Externals L) (hX : InitPerSpec X) :
    (new X).state.Cpsr = resetCpsr X := by
  simp only [new]
  rw [(hX.2 _).2.2]
  rfl

/-- C12: with initialisers as the spec describes them, every constructed facade has
`GetReg(i) = 0` for every `i` in 0-15 other than 13, `GetReg(13) = 0x10000000`,
`GetPC() = 0` with the `pc` field and general register 15 both 0, the status
register at its reset value and `GetTicks() = 0`; two constructions agree on the
general registers, the program counter and the tick count, and on the status
register when their reset values are the same. -/
theorem reset_state (X : Externals L) (hX : InitPerSpec X) :
    (∀ i : Fin 16, i ≠ 13 → (new X).GetReg i = 0) ∧
    (new X).GetReg 13 = 0x10000000 ∧
    (new X).GetPC = 0 ∧ (new X).state.pc = 0 ∧ (new X).state.Reg 15 = 0 ∧
    (new X).GetCPSR = resetCpsr X ∧
    (new X).GetTicks = 0 ∧
    (∀ Y : Externals L, InitPerSpec Y →
      (∀ i : Fin 16, (new Y).GetReg i = (new X).GetReg i) ∧
      (new Y).GetPC = (new X).GetPC ∧ (new Y).state.pc = (new X).state.pc ∧
      (new Y).GetTicks = (new X).GetTicks ∧
      (resetCpsr Y = resetCpsr X → (new Y).GetCPSR = (new X).GetCPSR)) := by
  refine ⟨fun i hi => ?_, ?_, ?_, new_pc X hX, ?_, new_cpsr X hX, rfl, fun Y hY => ?_⟩
  · rw [GetReg, new_reg X hX, if_neg hi]
  · rw [GetReg, new_reg X hX, if_pos rfl]
  · rw [GetPC, new_reg X hX, if_neg (by decide)]
  · rw [new_reg X hX, if_neg (by decide)]
  · refine ⟨fun i => ?_, ?_, ?_, rfl, fun h => ?_⟩
    · rw [GetReg, GetReg, new_reg X hX, new_reg Y hY]
    · rw [GetPC, GetPC, new_reg X hX, new_reg Y hY]
    · rw [new_pc X hX, new_pc Y hY]
    · rw [GetCPSR, GetCPSR, new_cpsr X hX, new_cpsr Y hY, h]

/-- C12 (witness): the constructed facade of the sixteen-slot layout, whose
initialisers leave the zero-filled state as it is, has `GetReg(0) = 0`,
`GetReg(13) = 0x10000000`, `GetPC() = 0` and `GetTicks() = 0`. -/
theorem reset_state_of_fresh :
    InitPerSpec (plainExternals layout16) ∧
    fresh16.GetReg 0 = 0 ∧ fresh16.GetReg 13 = 0x10000000 ∧ fresh16.GetPC = 0 ∧
    fresh16.GetTicks = 0 :=
  have h := reset_state (plainExternals layout16) (plainExternals_perSpec layout16)
  ⟨plainExternals_perSpec layout16, h.1 0 (by decide), h.2.1, h.2.2.1, h.2.2.2.2.2.2.1⟩

/-- C13: for every facade state, index `i` in 0-15 and value `v`, after
`SetReg(i, v)` `GetReg(i) = v`, `GetReg(j)` is unchanged for every other `j`, and
`GetCPSR()` and `GetTicks()` are unchanged; after `SetCPSR(c)` `GetCPSR() = c` and
every `GetReg(j)`, `GetPC()` and `GetTicks()` are unchanged. -/
theorem accessor_frames (cpu : ARM_DynCom L) (i : Fin 16) (v c : Nat) :
    (cpu.SetReg i v).GetReg i = v ∧
    (∀ j : Fin 16, j ≠ i → (cpu.SetReg i v).GetReg j = cpu.GetReg j) ∧
    (cpu.SetReg i v).GetCPSR = cpu.GetCPSR ∧
    (cpu.SetReg i v).GetTicks = cpu.GetTicks ∧
    (cpu.SetCPSR c).GetCPSR = c ∧
    (∀ j : Fin 16, (cpu.SetCPSR c).GetReg j = cpu.GetReg j) ∧
    (cpu.SetCPSR c).GetPC = cpu.GetPC ∧
    (cpu.SetCPSR c).GetTicks = cpu.GetTicks := by
  refine ⟨?_, fun j hj => ?_, rfl, rfl, rfl, fun _ => rfl, rfl, rfl⟩
  · simp [GetReg, SetReg]
  · simp [GetReg, SetReg, Function.update_noteq hj]

/-- C13 (witness): on the constructed facade, `SetReg(3, 9)` leaves `GetReg(3) = 9`
and `GetReg(13) = 0x10000000`. -/
theorem accessor_frames_on_fresh :
    (fresh16.SetReg 3 9).GetReg 3 = 9 ∧ (fresh16.SetReg 3 9).GetReg 13 = 0x10000000 :=
  have h := accessor_frames fresh16 3 9 0
  ⟨h.1, (h.2.1 13 (by decide)).trans (by decide)⟩

theorem loadContext_extReg (cpu : ARM_DynCom L) (ctx : ThreadContext L)
    (j : Fin L.extRegs) :
    (cpu.LoadContext ctx).state.ExtReg j =
      if h : j.val < L.fpuSlots then ctx.fpu_registers ⟨j.val, h⟩ else cpu.state.ExtReg j := by
  simp only [LoadContext, memcpy]

theorem loadContext_vfp (cpu : ARM_DynCom L) (ctx : ThreadContext L) (k : Fin L.vfpRegs) :
    (cpu.LoadContext ctx).state.VFP k =
      if k = L.vfp2 then ctx.fpexc else if k = L.vfp1 then ctx.fpscr else cpu.state.VFP k := by
  simp only [LoadContext, Function.update_apply]

/-- C14: `SaveContext` returns the facade state it was called on, whole, and only
fills the buffer; `LoadContext` leaves the tick count, the pending instruction
budget, the other processor-state fields outside the buffer, the extended
registers past the buffer's floating-point block and the VFP words other than
`VFP[1]` and `VFP[2]` unchanged. -/
theorem context_transfer_frame (cpu : ARM_DynCom L) (ctx : ThreadContext L) :
    (cpu.SaveContext ctx).1 = cpu ∧
    (cpu.LoadContext ctx).GetTicks = cpu.GetTicks ∧
    (cpu.LoadContext ctx).state.NumInstrsToExecute = cpu.state.NumInstrsToExecute ∧
    (cpu.LoadContext ctx).state.Emulate = cpu.state.Emulate ∧
    (cpu.LoadContext ctx).state.servaddr = cpu.state.servaddr ∧
    (cpu.LoadContext ctx).state.abort_model = cpu.state.abort_model ∧
    (cpu.LoadContext ctx).state.bigendSig = cpu.state.bigendSig ∧
    (cpu.LoadContext ctx).state.lateabtSig = cpu.state.lateabtSig ∧
    (cpu.LoadContext ctx).state.NirqSig = cpu.state.NirqSig ∧
    (cpu.LoadContext ctx).state.cpu = cpu.state.cpu ∧
    (∀ j : Fin L.extRegs, L.fpuSlots ≤ j.val →
      (cpu.LoadContext ctx).state.ExtReg j = cpu.state.ExtReg j) ∧
    (∀ k : Fin L.vfpRegs, k ≠ L.vfp1 → k ≠ L.vfp2 →
      (cpu.LoadContext ctx).state.VFP k = cpu.state.VFP k) := by
  refine ⟨rfl, rfl, rfl, rfl, rfl, rfl, rfl, rfl, rfl, rfl, fun j hj => ?_, fun k h1 h2 => ?_⟩
  · rw [loadContext_extReg, dif_neg (Nat.not_lt.mpr hj)]
  · rw [loadContext_vfp, if_neg h2, if_neg h1]

/-- C14 (witness): in the thirteen-slot layout, whose buffer covers 32 of the 64
extended registers, loading a buffer of fives keeps extended register 40 of the
constructed facade and its `VFP[0]`, while extended register 3 becomes 5. -/
theorem context_transfer_frame_on_fresh :
    (fresh13.LoadContext { zeroContext layout13 with fpu_registers := fun _ => 5 }).state.ExtReg
        ⟨40, by decide⟩ = fresh13.state.ExtReg ⟨40, by decide⟩ ∧
    (fresh13.LoadContext { zeroContext layout13 with fpu_registers := fun _ => 5 }).state.VFP
        ⟨0, by decide⟩ = fresh13.state.VFP ⟨0, by decide⟩ ∧
    (fresh13.LoadContext { zeroContext layout13 with fpu_registers := fun _ => 5 }).state.ExtReg
        ⟨3, by decide⟩ = 5 :=
  have h := context_transfer_frame fresh13
    { zeroContext layout13 with fpu_registers := fun _ => 5 }
  ⟨h.2.2.2.2.2.2.2.2.2.2.1 ⟨40, by decide⟩ (by decide),
   h.2.2.2.2.2.2.2.2.2.2.2 ⟨0, by decide⟩ (by decide) (by decide), by decide⟩

/-- C15 (amended): with an index inside 0-15 `GetReg` and `SetReg` do not fail:
`GetReg` returns `Reg[index]` and `SetReg` writes `Reg[index]`; and for no index at
all, inside or outside 0-15, does either of them end in an assertion failure. -/
theorem accessors_unchecked (cpu : ARM_DynCom L) (value : Nat) :
    (∀ i : Fin 16,
      cpu.GetRegRaw (i.val : Int) = .done (cpu.state.Reg i) ∧
      cpu.SetRegRaw (i.val : Int) value = .done (cpu.SetReg i value)) ∧
    (∀ index : Int,
      cpu.GetRegRaw index ≠ .assertionFailure ∧
      cpu.SetRegRaw index value ≠ .assertionFailure) := by
  constructor
  · intro i
    have h : (0 : Int) ≤ (i.val : Int) ∧ (i.val : Int) < 16 := by omega
    simp [GetRegRaw, SetRegRaw, GetReg, h]
  · intro index
    unfold GetRegRaw SetRegRaw
    constructor <;> split <;> simp

/-- C15 (witness): on the constructed facade `GetReg(13)` ends with the value
`0x10000000`. -/
theorem accessors_unchecked_at_13 :
    fresh16.GetRegRaw 13 = .done 0x10000000 :=
  ((accessors_unchecked fresh16 0).1 13).1.trans
    (congrArg Outcome.done (by decide : fresh16.state.Reg 13 = 0x10000000))

/-- C15 (counterexample): on the constructed facade `GetReg(16)`, `GetReg(-1)` and
`SetReg(16, 5)` do not end in an assertion failure: each is the unchecked access
past the array. -/
theorem accessors_no_assertion :
    fresh16.GetRegRaw 16 = .outOfBounds ∧ fresh16.GetRegRaw (-1) = .outOfBounds ∧
    fresh16.SetRegRaw 16 5 = .outOfBounds ∧
    fresh16.GetRegRaw 16 ≠ .assertionFailure ∧ fresh16.GetRegRaw (-1) ≠ .assertionFailure ∧
    fresh16.SetRegRaw 16 5 ≠ .assertionFailure := by
  refine ⟨rfl, rfl, rfl, ?_, ?_, ?_⟩ <;> simp [GetRegRaw, SetRegRaw]

theorem loadContext_twice (cpu : ARM_DynCom L) (b : ThreadContext L) :
    (cpu.LoadContext b).LoadContext b = cpu.LoadContext b := by
  apply ARM_DynCom.ext
  · apply ARMul_State.ext
    · funext i
      rw [loadContext_reg, loadContext_reg]
      split_ifs <;> rfl
    · rfl
    · rfl
    · funext j
      rw [loadContext_extReg, loadContext_extReg]
      split_ifs <;> rfl
    · funext k
      rw [loadContext_vfp, loadContext_vfp]
      split_ifs <;> rfl
    all_goals rfl
  · rfl

/-- C16: for every facade state and buffer `b`, after `LoadContext(b)`
`GetReg(13) = b.sp`, `GetReg(14) = b.lr`, `GetReg(15) = GetPC() = b.reg_15`,
whatever the general-register slots and `b.pc` hold, and the `pc` field is `b.pc`. -/
theorem load_dedicated_fields_win (cpu : ARM_DynCom L) (b : ThreadContext L) :
    (cpu.LoadContext b).GetReg 13 = b.sp ∧
    (cpu.LoadContext b).GetReg 14 = b.lr ∧
    (cpu.LoadContext b).GetReg 15 = b.reg_15 ∧
    (cpu.LoadContext b).GetPC = b.reg_15 ∧
    (cpu.LoadContext b).state.pc = b.pc := by
  refine ⟨?_, ?_, ?_, ?_, rfl⟩
  · rw [GetReg, loadContext_reg]; simp
  · rw [GetReg, loadContext_reg]; simp
  · rw [GetReg, loadContext_reg]; simp
  · rw [GetPC, loadContext_reg]; simp

/-- C17: for every buffer `b` and facade states `S1`, `S2`, the states after
`LoadContext(b)` agree on every general register, on the extended registers the
buffer covers, on the `pc` field, CPSR, `VFP[1]`, `VFP[2]` and `NextInstr`; and
`LoadContext(b)` twice is `LoadContext(b)` once. -/
theorem load_isolates_contexts (b : ThreadContext L) (S1 S2 : ARM_DynCom L) :
    (∀ i : Fin 16, (S1.LoadContext b).GetReg i = (S2.LoadContext b).GetReg i) ∧
    (∀ j : Fin L.extRegs, j.val < L.fpuSlots →
      (S1.LoadContext b).state.ExtReg j = (S2.LoadContext b).state.ExtReg j) ∧
    (S1.LoadContext b).state.pc = (S2.LoadContext b).state.pc ∧
    (S1.LoadContext b).GetPC = (S2.LoadContext b).GetPC ∧
    (S1.LoadContext b).GetCPSR = (S2.LoadContext b).GetCPSR ∧
    (S1.LoadContext b).state.VFP L.vfp1 = (S2.LoadContext b).state.VFP L.vfp1 ∧
    (S1.LoadContext b).state.VFP L.vfp2 = (S2.LoadContext b).state.VFP L.vfp2 ∧
    (S1.LoadContext b).state.NextInstr = (S2.LoadContext b).state.NextInstr ∧
    (S1.LoadContext b).LoadContext b = S1.LoadContext b := by
  have hR : ∀ i : Fin 16, (S1.LoadContext b).state.Reg i = (S2.LoadContext b).state.Reg i := by
    intro i
    rw [loadContext_reg, loadContext_reg]
    by_cases h15 : i = 15
    · simp [h15]
    by_cases h14 : i = 14
    · simp [h14]
    by_cases h13 : i = 13
    · simp [h13]
    have hlt : i.val < L.cpuSlots := by
      have hge := L.cpu_ge
      have e15 : i.val ≠ 15 := fun h => h15 (Fin.ext h)
      have e14 : i.val ≠ 14 := fun h => h14 (Fin.ext h)
      have e13 : i.val ≠ 13 := fun h => h13 (Fin.ext h)
      omega
    simp [h15, h14, h13, hlt]
  refine ⟨hR, fun j hj => ?_, rfl, hR 15, rfl, ?_, ?_, rfl, loadContext_twice S1 b⟩
  · rw [loadContext_extReg, loadContext_extReg, dif_pos hj, dif_pos hj]
  · rw [loadContext_vfp, loadContext_vfp]
    split_ifs with h2 h1
    · rfl
    · rfl
    · exact absurd rfl h1
  · rw [loadContext_vfp, loadContext_vfp, if_pos rfl, if_pos rfl]

/-- C17 (witness): loading the buffer saved after `SetPC(8)` into the constructed
facade and into a facade with other register contents gives the same extended
register 3 and the same general registers. -/
theorem load_isolates_contexts_on_fresh :
    (fresh16.LoadContext savedContext16).state.ExtReg ⟨3, by decide⟩ =
      ((fresh16.SetReg 2 77).LoadContext savedContext16).state.ExtReg ⟨3, by decide⟩ ∧
    (fresh16.LoadContext savedContext16).GetReg 2 =
      ((fresh16.SetReg 2 77).LoadContext savedContext16).GetReg 2 :=
  have h := load_isolates_contexts savedContext16 fresh16 (fresh16.SetReg 2 77)
  ⟨h.2.1 ⟨3, by decide⟩ (by decide), h.1 2⟩

/-- C18: for every facade state, engine and budget `n`, `PrepareReschedule()`
followed by `ExecuteInstructions(n)` yields the state, register file and tick
count, that `ExecuteInstructions(n)` alone yields: the engine is handed the same
register file, with pending budget `n`. -/
theorem reschedule_then_execute (engine : Engine L) (cpu : ARM_DynCom L) (n : Int) :
    cpu.PrepareReschedule.engineInput n = cpu.engineInput n ∧
    cpu.PrepareReschedule.ExecuteInstructions engine n = cpu.ExecuteInstructions engine n ∧
    (cpu.PrepareReschedule.ExecuteInstructions engine n).state =
      (cpu.ExecuteInstructions engine n).state ∧
    (cpu.PrepareReschedule.ExecuteInstructions engine n).GetTicks =
      (cpu.ExecuteInstructions engine n).GetTicks :=
  ⟨rfl, rfl, rfl, rfl⟩

end ARM_DynCom

end DynCom
